import Mathlib

/-!
Shallow embedding of the CyMouse receiver firmware (`src/main.cpp`).

The firmware's behaviour comes from four pieces of code:
* `OnDataRecv` — the ESP-NOW receive callback: length/type screening of an
  inbound frame and construction of the queue item;
* `mouseTask` — the consumer task body for one popped queue item: liveness
  refresh, connect-on-first-item, and HID translation (movement + button diff);
* `resetConnection` — timeout reset: peer removal request, flag clear,
  MAC zeroing;
* `loop` — the cooperative beacon / liveness-monitor tick.

Each is translated below as a pure function; the mutable globals
(`isConnected`, `lastPacketTime`, `peerMacAddress`, the task-local
`lastButtons`, and `loop`'s static `lastBroadcastTime`) become fields of
`SysState`, and the external side effects (HID calls, ESP-NOW requests and
sends) become explicit output lists.  `millis()` arithmetic is on
`unsigned long` (32-bit on the ESP32), modelled as `Nat` with explicit
wrap-around subtraction `u32sub`.
-/

set_option autoImplicit false

namespace CyMouse

/-- Wire tag values of the C `PacketType` enum.  The tag arrives as raw bytes,
so an arbitrary `Nat` stands for the (possibly out-of-enum) received value. -/
def PACKET_TYPE_DISCOVERY : Nat := 0

def PACKET_TYPE_MOUSE_DATA : Nat := 1

def PACKET_TYPE_HEARTBEAT : Nat := 2

/-- `CONNECTION_TIMEOUT` (ms): 3 s of silence means the link is lost. -/
def CONNECTION_TIMEOUT : Nat := 3000

/-- The configured device identity string. -/
def MY_DEVICE_NAME : String := "CyMouseReceiver_V1"

/-- The ESP-NOW broadcast address FF:FF:FF:FF:FF:FF. -/
def broadcastAddress : List Nat := [0xFF, 0xFF, 0xFF, 0xFF, 0xFF, 0xFF]

/-- The all-zero MAC the firmware uses for "no peer". -/
def zeroMac : List Nat := List.replicate 6 0

/-- The packed C struct `UniversalPacket` after byte interpretation: the tag
(`type`, raw value), the 32-byte name buffer (as a string), and the payload
fields.  Payload widths (`int16`, `int8`, `uint8`) are carried as `Int`/`Nat`
values; the code copies them without range checks, so no bound is imposed. -/
structure UniversalPacket where
  type : Nat
  deviceName : String
  deltaX : Int
  deltaY : Int
  wheel : Int
  buttons : Nat
  deriving Repr, DecidableEq

/-- `sizeof(UniversalPacket)` under `#pragma pack(1)` on the ESP32:
4 (enum) + 32 (name) + 2 + 2 + 1 + 1 bytes. -/
def sizeofUniversalPacket : Nat := 42

/-- The C struct `QueueItem_t`: sender MAC plus the payload of the packet. -/
structure QueueItem where
  mac_addr : List Nat
  type : Nat
  deltaX : Int
  deltaY : Int
  wheel : Int
  buttons : Nat
  deriving Repr, DecidableEq

/-- `OnDataRecv`: drops the frame unless the length equals
`sizeof(UniversalPacket)` exactly and the tag is MOUSE_DATA or HEARTBEAT;
otherwise builds the queue item field by field and offers it to the queue.
`none` is a silent drop (the C function just returns). -/
def OnDataRecv (mac_addr : List Nat) (data : UniversalPacket) (data_len : Nat) :
    Option QueueItem :=
  if data_len ≠ sizeofUniversalPacket then
    none
  else if data.type = PACKET_TYPE_MOUSE_DATA ∨ data.type = PACKET_TYPE_HEARTBEAT then
    some { mac_addr := mac_addr
           type := data.type
           deltaX := data.deltaX
           deltaY := data.deltaY
           wheel := data.wheel
           buttons := data.buttons }
  else
    none

/-- The five HID buttons, in the fixed order the code tests their bits. -/
inductive Button where
  | left
  | right
  | middle
  | backward
  | forward
  deriving Repr, DecidableEq

/-- One call into the USB HID mouse subsystem. -/
inductive HidAction where
  | move (deltaX deltaY wheel : Int)
  | press (b : Button)
  | release (b : Button)
  deriving Repr, DecidableEq

/-- One request to the ESP-NOW radio subsystem. -/
inductive RadioReq where
  | addPeer (mac : List Nat)
  | delPeer (mac : List Nat)
  | send (dest : List Nat) (pkt : UniversalPacket)
  deriving Repr, DecidableEq

/-- The firmware's mutable state: the globals `isConnected`, `lastPacketTime`,
`peerMacAddress`, the `mouseTask`-local `lastButtons`, and `loop`'s static
`lastBroadcastTime`. -/
structure SysState where
  isConnected : Bool
  lastPacketTime : Nat
  peerMacAddress : List Nat
  lastButtons : Nat
  lastBroadcastTime : Nat
  deriving Repr, DecidableEq

/-- Startup state: globals zero-initialised, `Disconnected`. -/
def initialState : SysState :=
  { isConnected := false
    lastPacketTime := 0
    peerMacAddress := zeroMac
    lastButtons := 0
    lastBroadcastTime := 0 }

/-- 32-bit wrap-around subtraction, the arithmetic of
`millis() - lastPacketTime` on `unsigned long`. -/
def u32sub (a b : Nat) : Nat :=
  (a % 2 ^ 32 + 2 ^ 32 - b % 2 ^ 32) % 2 ^ 32

/-- The button block of `mouseTask` (lines 135–143): when the new mask differs
from `lastButtons`, XOR them and test bits 0x01, 0x02, 0x04, 0x08, 0x10 in that
order, emitting press when the new mask has the bit and release otherwise, then
store the new mask.  Returns the emitted actions and the updated mask. -/
def buttonStep (buttons lastButtons : Nat) : List HidAction × Nat :=
  if buttons ≠ lastButtons then
    let changed := buttons ^^^ lastButtons
    let acts :=
      (if changed &&& 0x01 ≠ 0 then
        [if buttons &&& 0x01 ≠ 0 then HidAction.press .left else HidAction.release .left]
       else []) ++
      (if changed &&& 0x02 ≠ 0 then
        [if buttons &&& 0x02 ≠ 0 then HidAction.press .right else HidAction.release .right]
       else []) ++
      (if changed &&& 0x04 ≠ 0 then
        [if buttons &&& 0x04 ≠ 0 then HidAction.press .middle else HidAction.release .middle]
       else []) ++
      (if changed &&& 0x08 ≠ 0 then
        [if buttons &&& 0x08 ≠ 0 then HidAction.press .backward else HidAction.release .backward]
       else []) ++
      (if changed &&& 0x10 ≠ 0 then
        [if buttons &&& 0x10 ≠ 0 then HidAction.press .forward else HidAction.release .forward]
       else [])
    (acts, buttons)
  else
    ([], lastButtons)

/-- One iteration of the `mouseTask` loop body for a popped item at time
`now = millis()`: refresh `lastPacketTime`; if not connected, save the sender
MAC, request peer registration and mark connected; if the item is MOUSE_DATA,
emit the move (when any of the three deltas is nonzero) and run the button
diff.  Returns the new state, the HID actions and the radio requests. -/
def mouseTaskStep (s : SysState) (item : QueueItem) (now : Nat) :
    SysState × List HidAction × List RadioReq :=
  let s1 := { s with lastPacketTime := now }
  let connectStep :=
    if s1.isConnected = false then
      ({ s1 with peerMacAddress := item.mac_addr, isConnected := true },
       [RadioReq.addPeer item.mac_addr])
    else
      (s1, ([] : List RadioReq))
  let s2 := connectStep.1
  let reqs := connectStep.2
  if item.type = PACKET_TYPE_MOUSE_DATA then
    let moveActs :=
      if item.deltaX ≠ 0 ∨ item.deltaY ≠ 0 ∨ item.wheel ≠ 0 then
        [HidAction.move item.deltaX item.deltaY item.wheel]
      else []
    let btn := buttonStep item.buttons s2.lastButtons
    ({ s2 with lastButtons := btn.2 }, moveActs ++ btn.1, reqs)
  else
    (s2, [], reqs)

/-- `resetConnection`: request removal of the saved peer, clear the connected
flag, zero the peer MAC. -/
def resetConnection (s : SysState) : SysState × List RadioReq :=
  ({ s with isConnected := false, peerMacAddress := zeroMac },
   [RadioReq.delPeer s.peerMacAddress])

/-- The Discovery beacon packet `loop` builds: zero-initialised struct, then
`type = DISCOVERY` and the device name copied in. -/
def discoveryPacket : UniversalPacket :=
  { type := PACKET_TYPE_DISCOVERY
    deviceName := MY_DEVICE_NAME
    deltaX := 0
    deltaY := 0
    wheel := 0
    buttons := 0 }

/-- One `loop` iteration at time `now = millis()`: while disconnected,
broadcast the Discovery packet when at least 1000 ms have elapsed since the
last broadcast; while connected, run the timeout reset when more than
`CONNECTION_TIMEOUT` ms have elapsed since the last packet. -/
def loopStep (s : SysState) (now : Nat) : SysState × List RadioReq :=
  if s.isConnected = false then
    if u32sub now s.lastBroadcastTime ≥ 1000 then
      ({ s with lastBroadcastTime := now },
       [RadioReq.send broadcastAddress discoveryPacket])
    else
      (s, [])
  else
    if u32sub now s.lastPacketTime > CONNECTION_TIMEOUT then
      resetConnection s
    else
      (s, [])

/-- The operations that touch `SysState` after startup.  (`OnDataRecv` runs in
interrupt context and mutates none of these globals — it only offers items to
the queue — so the state-transition system consists of queue pops and loop
ticks.) -/
inductive Step where
  | pop (item : QueueItem) (now : Nat)
  | tick (now : Nat)
  deriving Repr, DecidableEq

/-- Apply one operation, collecting HID actions and radio requests. -/
def applyStep (s : SysState) (st : Step) : SysState × List HidAction × List RadioReq :=
  match st with
  | .pop item now => mouseTaskStep s item now
  | .tick now =>
    let r := loopStep s now
    (r.1, [], r.2)

/-- Run a sequence of operations from a state. -/
def run (s : SysState) : List Step → SysState
  | [] => s
  | st :: rest => run (applyStep s st).1 rest

/-- The button each of the five tested bit positions drives, in the fixed
order of the code: bit 0 left, 1 right, 2 middle, 3 backward, 4 forward. -/
def buttonBit : Nat → Button
  | 0 => .left
  | 1 => .right
  | 2 => .middle
  | 3 => .backward
  | _ => .forward

/-- Whether a HID action is a relative-move action. -/
def isMove : HidAction → Bool
  | .move _ _ _ => true
  | _ => false

/-- Whether a radio request is a send (as opposed to peer management). -/
def isSend : RadioReq → Bool
  | .send _ _ => true
  | _ => false

/-- A step whose popped entry (if any) carries a sender address other than the
all-zero MAC.  Real ESP-NOW senders always do; the firmware never checks. -/
def stepMacOk : Step → Prop
  | .pop item _ => item.mac_addr ≠ zeroMac
  | .tick _ => True

/-! ### Concrete sample inputs for witnesses and counterexamples -/

/-- A Heartbeat entry from the (nonzero) sender MAC 01:02:03:04:05:06. -/
def hbItem : QueueItem :=
  { mac_addr := [1, 2, 3, 4, 5, 6], type := PACKET_TYPE_HEARTBEAT,
    deltaX := 0, deltaY := 0, wheel := 0, buttons := 0 }

/-- A Heartbeat entry whose sender MAC is the all-zero address. -/
def zeroMacItem : QueueItem :=
  { mac_addr := zeroMac, type := PACKET_TYPE_HEARTBEAT,
    deltaX := 0, deltaY := 0, wheel := 0, buttons := 0 }

/-- A MouseData entry whose buttons field has only the top (non-button) bit. -/
def topBitItem : QueueItem :=
  { mac_addr := [1, 2, 3, 4, 5, 6], type := PACKET_TYPE_MOUSE_DATA,
    deltaX := 0, deltaY := 0, wheel := 0, buttons := 0x80 }

/-- A MouseData entry carrying a nonzero movement. -/
def moveItem : QueueItem :=
  { mac_addr := [1, 2, 3, 4, 5, 6], type := PACKET_TYPE_MOUSE_DATA,
    deltaX := 3, deltaY := -2, wheel := 1, buttons := 0 }

/-- A Heartbeat entry whose unused payload fields carry junk values. -/
def junkHbItem : QueueItem :=
  { mac_addr := [1, 2, 3, 4, 5, 6], type := PACKET_TYPE_HEARTBEAT,
    deltaX := 7, deltaY := -9, wheel := 5, buttons := 0xFF }

/-- A Connected state bound to peer 01:02:03:04:05:06. -/
def connState : SysState :=
  { isConnected := true, lastPacketTime := 4, peerMacAddress := [1, 2, 3, 4, 5, 6],
    lastButtons := 3, lastBroadcastTime := 0 }

/-! ## Helper lemmas -/

theorem and_two_pow_ne_zero (n i : Nat) : n &&& 2 ^ i ≠ 0 ↔ n.testBit i = true := by
  rw [Nat.and_two_pow]
  cases h : n.testBit i <;> simp

theorem and_mask0 (n : Nat) : (n &&& 0x01 ≠ 0) ↔ n.testBit 0 = true := by
  have h := and_two_pow_ne_zero n 0
  simpa using h

theorem and_mask1 (n : Nat) : (n &&& 0x02 ≠ 0) ↔ n.testBit 1 = true := by
  simpa using and_two_pow_ne_zero n 1

theorem and_mask2 (n : Nat) : (n &&& 0x04 ≠ 0) ↔ n.testBit 2 = true := by
  simpa using and_two_pow_ne_zero n 2

theorem and_mask3 (n : Nat) : (n &&& 0x08 ≠ 0) ↔ n.testBit 3 = true := by
  simpa using and_two_pow_ne_zero n 3

theorem and_mask4 (n : Nat) : (n &&& 0x10 ≠ 0) ↔ n.testBit 4 = true := by
  simpa using and_two_pow_ne_zero n 4

/-! ## Claim theorems -/

/-- Claim C1: starting from `phase=Disconnected`, the first MouseData or
Heartbeat entry popped from the queue sets `phase=Connected` and binds
`peerAddress` to that entry's sender address, for both entry kinds alike. -/
theorem C1_first_entry_connects (s : SysState) (item : QueueItem) (now : Nat)
    (hdisc : s.isConnected = false)
    (hkind : item.type = PACKET_TYPE_MOUSE_DATA ∨ item.type = PACKET_TYPE_HEARTBEAT) :
    (mouseTaskStep s item now).1.isConnected = true ∧
      (mouseTaskStep s item now).1.peerMacAddress = item.mac_addr := by
  simp only [mouseTaskStep, hdisc]
  split <;> simp

/-- Witness for C1, at a concrete Heartbeat entry: the initial state is
Disconnected, and processing the entry connects and binds the sender MAC. -/
theorem C1_first_entry_connects_witness :
    (mouseTaskStep initialState
        { mac_addr := [1, 2, 3, 4, 5, 6], type := PACKET_TYPE_HEARTBEAT,
          deltaX := 0, deltaY := 0, wheel := 0, buttons := 0 } 7).1.isConnected = true ∧
      (mouseTaskStep initialState
        { mac_addr := [1, 2, 3, 4, 5, 6], type := PACKET_TYPE_HEARTBEAT,
          deltaX := 0, deltaY := 0, wheel := 0, buttons := 0 } 7).1.peerMacAddress =
        [1, 2, 3, 4, 5, 6] :=
  C1_first_entry_connects initialState _ 7 rfl (Or.inr rfl)

/-- Claim C2: from `phase=Connected`, the transition to Disconnected happens
exactly on a monitor tick whose elapsed time since `lastSeen` exceeds
`CONNECTION_TIMEOUT`; that reset clears `peerAddress` to all-zero and issues
exactly one peer-removal request, and no other operation (queue pop or
non-timeout tick) ever sets the phase to Disconnected. -/
theorem C2_disconnect_only_by_timeout (s : SysState) (st : Step)
    (hconn : s.isConnected = true) :
    (((applyStep s st).1.isConnected = false) ↔
      ∃ now, st = Step.tick now ∧ u32sub now s.lastPacketTime > CONNECTION_TIMEOUT) ∧
    ((applyStep s st).1.isConnected = false →
      (applyStep s st).1.peerMacAddress = zeroMac ∧
      (applyStep s st).2.2 = [RadioReq.delPeer s.peerMacAddress]) := by
  cases st with
  | pop item now =>
    simp only [applyStep, mouseTaskStep, hconn]
    constructor
    · simp [hconn]
      split <;> simp [hconn]
    · split <;> simp [hconn]
  | tick now =>
    simp only [applyStep, loopStep, hconn]
    by_cases ht : u32sub now s.lastPacketTime > CONNECTION_TIMEOUT
    · simp [ht, resetConnection]
    · simp [ht, hconn]

/-- Witness for C2, at a concrete Connected state and a tick at 4000 ms with
`lastSeen = 0`: 4000 − 0 > 3000, so the tick disconnects, zeroes the peer MAC
and requests removal of the bound peer. -/
theorem C2_disconnect_only_by_timeout_witness :
    (((applyStep
        { isConnected := true, lastPacketTime := 0, peerMacAddress := [1, 2, 3, 4, 5, 6],
          lastButtons := 0, lastBroadcastTime := 0 } (Step.tick 4000)).1.isConnected = false) ↔
      ∃ now, Step.tick 4000 = Step.tick now ∧ u32sub now 0 > CONNECTION_TIMEOUT) ∧
    ((applyStep
        { isConnected := true, lastPacketTime := 0, peerMacAddress := [1, 2, 3, 4, 5, 6],
          lastButtons := 0, lastBroadcastTime := 0 } (Step.tick 4000)).1.isConnected = false →
      (applyStep
        { isConnected := true, lastPacketTime := 0, peerMacAddress := [1, 2, 3, 4, 5, 6],
          lastButtons := 0, lastBroadcastTime := 0 } (Step.tick 4000)).1.peerMacAddress = zeroMac ∧
      (applyStep
        { isConnected := true, lastPacketTime := 0, peerMacAddress := [1, 2, 3, 4, 5, 6],
          lastButtons := 0, lastBroadcastTime := 0 } (Step.tick 4000)).2.2 =
        [RadioReq.delPeer [1, 2, 3, 4, 5, 6]]) :=
  C2_disconnect_only_by_timeout _ _ rfl

/-- Claim C4: every popped entry sets `lastSeen` to the current time
unconditionally, whatever its kind, payload, or the current phase. -/
theorem C4_lastSeen_refresh_unconditional (s : SysState) (item : QueueItem) (now : Nat) :
    (mouseTaskStep s item now).1.lastPacketTime = now := by
  simp only [mouseTaskStep]
  split <;> split <;> simp

/-- Claim C5: an inbound frame yields a queue entry iff its length equals the
fixed wire size and its tag is MouseData or Heartbeat; the accepted entry
copies the payload fields unmodified (no range check), and every other frame
(wrong length, Discovery tag, or unknown tag) yields nothing. -/
theorem C5_gatekeeper (mac : List Nat) (pkt : UniversalPacket) (len : Nat) :
    OnDataRecv mac pkt len =
      if len = sizeofUniversalPacket ∧
          (pkt.type = PACKET_TYPE_MOUSE_DATA ∨ pkt.type = PACKET_TYPE_HEARTBEAT) then
        some { mac_addr := mac, type := pkt.type, deltaX := pkt.deltaX,
               deltaY := pkt.deltaY, wheel := pkt.wheel, buttons := pkt.buttons }
      else none := by
  simp only [OnDataRecv]
  by_cases h1 : len = sizeofUniversalPacket <;>
    by_cases h2 : pkt.type = PACKET_TYPE_MOUSE_DATA ∨ pkt.type = PACKET_TYPE_HEARTBEAT <;>
    simp [h1, h2]

/-- The emitted button actions are exactly the bits 0–4 of
`buttons XOR lastButtons`, visited in ascending order, each mapped to a press
when the new mask has the bit and a release otherwise. -/
theorem buttonStep_fst_eq (buttons lastMask : Nat) :
    (buttonStep buttons lastMask).1 =
      (List.range 5).filterMap (fun i =>
        if (buttons ^^^ lastMask).testBit i then
          some (if buttons.testBit i then HidAction.press (buttonBit i)
                else HidAction.release (buttonBit i))
        else none) := by
  by_cases h : buttons = lastMask
  · subst h
    have hrange : List.range 5 = [0, 1, 2, 3, 4] := by decide
    simp [buttonStep, Nat.xor_self, Nat.zero_testBit, hrange]
  · have hrange : List.range 5 = [0, 1, 2, 3, 4] := by decide
    simp only [buttonStep, if_pos h, and_mask0, and_mask1, and_mask2, and_mask3, and_mask4,
      hrange]
    simp only [List.filterMap_cons, List.filterMap_nil]
    cases c0 : (buttons ^^^ lastMask).testBit 0 <;>
    cases c1 : (buttons ^^^ lastMask).testBit 1 <;>
    cases c2 : (buttons ^^^ lastMask).testBit 2 <;>
    cases c3 : (buttons ^^^ lastMask).testBit 3 <;>
    cases c4 : (buttons ^^^ lastMask).testBit 4 <;>
      simp [buttonBit]

/-- The stored mask is replaced by the new mask exactly when the diff is
nonzero. -/
theorem buttonStep_snd_eq (buttons lastMask : Nat) :
    (buttonStep buttons lastMask).2 =
      (if buttons ^^^ lastMask ≠ 0 then buttons else lastMask) := by
  by_cases h : buttons = lastMask
  · subst h
    simp [buttonStep, Nat.xor_self]
  · have hx : buttons ^^^ lastMask ≠ 0 := fun hz => h (Nat.xor_eq_zero.mp hz)
    simp [buttonStep, h, hx]

/-- Button actions are never relative-move actions. -/
theorem buttonStep_no_move (buttons lastMask : Nat) (a : HidAction)
    (ha : a ∈ (buttonStep buttons lastMask).1) : isMove a = false := by
  rw [buttonStep_fst_eq] at ha
  simp only [List.mem_filterMap] at ha
  obtain ⟨i, _, hfi⟩ := ha
  split at hfi
  · rw [Option.some_inj] at hfi
    subst hfi
    split <;> rfl
  · exact absurd hfi (Option.some_ne_none a).symm

/-- Claim C6: the translator computes `changed = buttons XOR lastMask`, visits
the five button bits in ascending order (left, right, middle, back, forward),
emits press where the new mask has the bit and release where it does not, and
updates the stored mask exactly when `changed` is nonzero; in particular from
`lastMask = 0b00000` and `buttons = 0b00011` it emits press(left) then
press(right), in that order, and the stored mask becomes `0b00011`. -/
theorem C6_button_diff (buttons lastMask : Nat) :
    (buttonStep buttons lastMask).1 =
      (List.range 5).filterMap (fun i =>
        if (buttons ^^^ lastMask).testBit i then
          some (if buttons.testBit i then HidAction.press (buttonBit i)
                else HidAction.release (buttonBit i))
        else none) ∧
    (buttonStep buttons lastMask).2 =
      (if buttons ^^^ lastMask ≠ 0 then buttons else lastMask) ∧
    buttonStep 0b00011 0b00000 =
      ([HidAction.press .left, HidAction.press .right], 0b00011) :=
  ⟨buttonStep_fst_eq buttons lastMask, buttonStep_snd_eq buttons lastMask, by decide⟩

/-- Counterexample to claim C7: a single MouseData entry with
`buttons = 0x80` (only the top bit set) makes the translator store
`lastMask = 128`, whose upper three bits are not zero — the code stores the
full 8-bit field, not a 5-bit mask. -/
theorem C7_counterexample :
    (mouseTaskStep initialState
        { mac_addr := [1, 2, 3, 4, 5, 6], type := PACKET_TYPE_MOUSE_DATA,
          deltaX := 0, deltaY := 0, wheel := 0, buttons := 0x80 } 0).1.lastButtons = 128 ∧
      ¬ (mouseTaskStep initialState
        { mac_addr := [1, 2, 3, 4, 5, 6], type := PACKET_TYPE_MOUSE_DATA,
          deltaX := 0, deltaY := 0, wheel := 0, buttons := 0x80 } 0).1.lastButtons < 2 ^ 5 := by
  constructor <;> decide

/-- Claim C7 as amended: after processing a MouseData entry the stored mask
equals that entry's full 8-bit `buttons` field (updated when it differed,
already equal otherwise); upper bits are retained verbatim rather than being
masked to the five button bits. -/
theorem C7_amended_lastMask_tracks_buttons (s : SysState) (item : QueueItem) (now : Nat)
    (hkind : item.type = PACKET_TYPE_MOUSE_DATA) :
    (mouseTaskStep s item now).1.lastButtons = item.buttons := by
  simp only [mouseTaskStep, hkind, if_pos]
  by_cases hb : item.buttons = s.lastButtons <;>
    split <;> simp [buttonStep_snd_eq, hb]

/-- Witness for the amended C7: a MouseData entry with `buttons = 0x80` leaves
the stored mask equal to 128. -/
theorem C7_amended_lastMask_tracks_buttons_witness :
    (mouseTaskStep initialState
        { mac_addr := [1, 2, 3, 4, 5, 6], type := PACKET_TYPE_MOUSE_DATA,
          deltaX := 0, deltaY := 0, wheel := 0, buttons := 0x80 } 0).1.lastButtons = 0x80 :=
  C7_amended_lastMask_tracks_buttons initialState _ 0 rfl

/-- The HID output of a MouseData entry is the conditional move action
followed by the button-diff actions against the pre-step stored mask. -/
theorem mouseTaskStep_hid_mouseData (s : SysState) (item : QueueItem) (now : Nat)
    (hkind : item.type = PACKET_TYPE_MOUSE_DATA) :
    (mouseTaskStep s item now).2.1 =
      (if item.deltaX ≠ 0 ∨ item.deltaY ≠ 0 ∨ item.wheel ≠ 0 then
        [HidAction.move item.deltaX item.deltaY item.wheel]
       else []) ++ (buttonStep item.buttons s.lastButtons).1 := by
  simp only [mouseTaskStep, hkind, if_pos]
  by_cases hc : s.isConnected = false <;> simp [hc]

/-- Claim C8: a MouseData entry emits exactly one relative-move action
carrying `deltaX`, `deltaY`, `wheel` unmodified when at least one of them is
nonzero, and no move action when all three are zero; an entry with all three
zero and `buttons` equal to the stored mask emits no HID action at all. -/
theorem C8_movement (s : SysState) (item : QueueItem) (now : Nat)
    (hkind : item.type = PACKET_TYPE_MOUSE_DATA) :
    ((item.deltaX ≠ 0 ∨ item.deltaY ≠ 0 ∨ item.wheel ≠ 0) →
      ((mouseTaskStep s item now).2.1.filter isMove) =
        [HidAction.move item.deltaX item.deltaY item.wheel]) ∧
    ((item.deltaX = 0 ∧ item.deltaY = 0 ∧ item.wheel = 0) →
      ((mouseTaskStep s item now).2.1.filter isMove) = []) ∧
    ((item.deltaX = 0 ∧ item.deltaY = 0 ∧ item.wheel = 0 ∧ item.buttons = s.lastButtons) →
      (mouseTaskStep s item now).2.1 = []) := by
  have hbtn : (buttonStep item.buttons s.lastButtons).1.filter isMove = [] := by
    rw [List.filter_eq_nil_iff]
    intro a ha
    simp [buttonStep_no_move item.buttons s.lastButtons a ha]
  refine ⟨?_, ?_, ?_⟩
  · intro hmv
    rw [mouseTaskStep_hid_mouseData s item now hkind, if_pos hmv, List.filter_append, hbtn]
    rfl
  · rintro ⟨h1, h2, h3⟩
    rw [mouseTaskStep_hid_mouseData s item now hkind,
      if_neg (by simp [h1, h2, h3]), List.nil_append, hbtn]
  · rintro ⟨h1, h2, h3, h4⟩
    rw [mouseTaskStep_hid_mouseData s item now hkind, if_neg (by simp [h1, h2, h3])]
    simp [buttonStep, h4]

/-- Witness for C8, at a concrete entry with `deltaX = 3` (first conjunct) —
the single move action carries 3, −2, 1 unmodified. -/
theorem C8_movement_witness :
    ((mouseTaskStep initialState
        { mac_addr := [1, 2, 3, 4, 5, 6], type := PACKET_TYPE_MOUSE_DATA,
          deltaX := 3, deltaY := -2, wheel := 1, buttons := 0 } 9).2.1.filter isMove) =
      [HidAction.move 3 (-2) 1] :=
  (C8_movement initialState
      { mac_addr := [1, 2, 3, 4, 5, 6], type := PACKET_TYPE_MOUSE_DATA,
        deltaX := 3, deltaY := -2, wheel := 1, buttons := 0 } 9 rfl).1 (by decide)

/-- Claim C9: while Disconnected with at least 1000 ms since the last
broadcast, one tick sends exactly one Discovery packet — tag Discovery,
identity the configured device name, all numeric fields zero — to the
broadcast address; while Connected a tick sends nothing at all. -/
theorem C9_beacon (s : SysState) (now : Nat) :
    (s.isConnected = false → u32sub now s.lastBroadcastTime ≥ 1000 →
      (loopStep s now).2 = [RadioReq.send broadcastAddress discoveryPacket] ∧
      discoveryPacket.type = PACKET_TYPE_DISCOVERY ∧
      discoveryPacket.deviceName = MY_DEVICE_NAME ∧
      discoveryPacket.deltaX = 0 ∧ discoveryPacket.deltaY = 0 ∧
      discoveryPacket.wheel = 0 ∧ discoveryPacket.buttons = 0) ∧
    (s.isConnected = true → ∀ r ∈ (loopStep s now).2, isSend r = false) := by
  constructor
  · intro hd ht
    refine ⟨?_, rfl, rfl, rfl, rfl, rfl, rfl⟩
    simp [loopStep, hd, ht]
  · intro hc r hr
    simp only [loopStep, hc, Bool.true_eq_false, if_false] at hr
    split at hr
    · simp only [resetConnection, List.mem_singleton] at hr
      subst hr
      rfl
    · simp at hr

/-- Witness for C9: from the initial state at 1000 ms, the elapsed time is
exactly 1000, so the tick broadcasts one Discovery packet. -/
theorem C9_beacon_witness :
    (loopStep initialState 1000).2 = [RadioReq.send broadcastAddress discoveryPacket] ∧
      discoveryPacket.type = PACKET_TYPE_DISCOVERY ∧
      discoveryPacket.deviceName = MY_DEVICE_NAME ∧
      discoveryPacket.deltaX = 0 ∧ discoveryPacket.deltaY = 0 ∧
      discoveryPacket.wheel = 0 ∧ discoveryPacket.buttons = 0 :=
  (C9_beacon initialState 1000).1 rfl (by decide)

/-- Claim C10: a Heartbeat entry — whatever its payload fields hold — emits no
HID action and leaves the stored button mask unchanged; its whole effect is
the `lastSeen` refresh plus, when Disconnected, the connect transition (which
also issues the peer-registration request). -/
theorem C10_heartbeat_effect (s : SysState) (item : QueueItem) (now : Nat)
    (hkind : item.type = PACKET_TYPE_HEARTBEAT) :
    (mouseTaskStep s item now).2.1 = [] ∧
    (mouseTaskStep s item now).1.lastButtons = s.lastButtons ∧
    (s.isConnected = true →
      (mouseTaskStep s item now).1 = { s with lastPacketTime := now } ∧
      (mouseTaskStep s item now).2.2 = []) ∧
    (s.isConnected = false →
      (mouseTaskStep s item now).1 =
        { s with lastPacketTime := now, isConnected := true,
                 peerMacAddress := item.mac_addr } ∧
      (mouseTaskStep s item now).2.2 = [RadioReq.addPeer item.mac_addr]) := by
  have hne : item.type ≠ PACKET_TYPE_MOUSE_DATA := by
    rw [hkind]
    decide
  cases hc : s.isConnected <;>
    simp [mouseTaskStep, hne, hc]

/-- Witness for C10, at a concrete Heartbeat entry with junk payload from a
Connected state: no HID output, mask and peer unchanged, only `lastSeen`
moves. -/
theorem C10_heartbeat_effect_witness :
    (mouseTaskStep connState junkHbItem 20).2.1 = [] ∧
    (mouseTaskStep connState junkHbItem 20).1.lastButtons = connState.lastButtons ∧
    (connState.isConnected = true →
      (mouseTaskStep connState junkHbItem 20).1 = { connState with lastPacketTime := 20 } ∧
      (mouseTaskStep connState junkHbItem 20).2.2 = []) ∧
    (connState.isConnected = false →
      (mouseTaskStep connState junkHbItem 20).1 =
        { connState with lastPacketTime := 20, isConnected := true,
                         peerMacAddress := junkHbItem.mac_addr } ∧
      (mouseTaskStep connState junkHbItem 20).2.2 =
        [RadioReq.addPeer junkHbItem.mac_addr]) :=
  C10_heartbeat_effect connState junkHbItem 20 rfl

/-- Counterexample to claim C3: the firmware never validates the sender MAC,
so an entry whose sender address is the all-zero MAC connects and leaves a
reachable Connected state whose `peerAddress` is all-zero, refuting the
if-and-only-if as stated. -/
theorem C3_counterexample :
    (run initialState [Step.pop zeroMacItem 5]).isConnected = true ∧
    (run initialState [Step.pop zeroMacItem 5]).peerMacAddress = zeroMac := by
  constructor <;> decide

/-- One step preserves the peer-address/phase correspondence, as long as the
popped entry (if any) does not carry the all-zero sender MAC. -/
theorem macInv_applyStep (s : SysState) (st : Step) (hok : stepMacOk st)
    (h : s.peerMacAddress = zeroMac ↔ s.isConnected = false) :
    ((applyStep s st).1.peerMacAddress = zeroMac ↔
      (applyStep s st).1.isConnected = false) := by
  cases st with
  | pop item now =>
    simp only [stepMacOk] at hok
    cases hc : s.isConnected with
    | false =>
      simp only [applyStep, mouseTaskStep, hc]
      split <;> simp [hok]
    | true =>
      have hp : s.peerMacAddress ≠ zeroMac := by
        intro hz
        have := h.mp hz
        rw [hc] at this
        cases this
      simp only [applyStep, mouseTaskStep, hc]
      split <;> simp [hp]
  | tick now =>
    cases hc : s.isConnected with
    | false =>
      by_cases hb : u32sub now s.lastBroadcastTime ≥ 1000 <;>
        simp only [applyStep, loopStep, hb, hc, if_true, if_false] <;>
        simpa [hc] using h
    | true =>
      by_cases ht : u32sub now s.lastPacketTime > CONNECTION_TIMEOUT <;>
        simp only [applyStep, loopStep, hc, Bool.true_eq_false, if_false, ht, if_true,
          resetConnection] <;>
        simp <;> simpa [hc] using h

/-- The correspondence holds after any run of MAC-respecting steps from any
state where it holds. -/
theorem macInv_run (steps : List Step) : ∀ s : SysState,
    (∀ st ∈ steps, stepMacOk st) →
    (s.peerMacAddress = zeroMac ↔ s.isConnected = false) →
    ((run s steps).peerMacAddress = zeroMac ↔ (run s steps).isConnected = false) := by
  induction steps with
  | nil =>
    intro s _ h
    simpa [run] using h
  | cons st rest ih =>
    intro s hok h
    simp only [run]
    exact ih _ (fun x hx => hok x (List.mem_cons_of_mem st hx))
      (macInv_applyStep s st (hok st (List.mem_cons_self st rest)) h)

/-- Claim C3 as amended: in every state reachable from startup by entries
whose sender address is not the all-zero MAC (which real radio senders never
use, and which the firmware does not check), `peerAddress` is all-zero iff
`phase = Disconnected`.  Without that proviso only the Disconnected ⇒ all-zero
direction survives, as `C3_counterexample` shows. -/
theorem C3_amended_peer_zero_iff_disconnected (steps : List Step)
    (hok : ∀ st ∈ steps, stepMacOk st) :
    ((run initialState steps).peerMacAddress = zeroMac ↔
      (run initialState steps).isConnected = false) :=
  macInv_run steps initialState hok (by simp [initialState])

/-- Witness for the amended C3: a one-entry run from a nonzero sender MAC;
the resulting Connected state has a nonzero `peerAddress`, matching the iff. -/
theorem C3_amended_peer_zero_iff_disconnected_witness :
    (∀ st ∈ [Step.pop hbItem 5], stepMacOk st) ∧
    ((run initialState [Step.pop hbItem 5]).peerMacAddress = zeroMac ↔
      (run initialState [Step.pop hbItem 5]).isConnected = false) := by
  have hok : ∀ st ∈ [Step.pop hbItem 5], stepMacOk st := by
    intro st hst
    rw [List.mem_singleton] at hst
    subst hst
    simp only [stepMacOk]
    decide
  exact ⟨hok, C3_amended_peer_zero_iff_disconnected _ hok⟩

end CyMouse
